import Mathlib

/-!
Shallow embedding of the RemoteAuth session-persistence subsystem
(src/src/authStrategies/RemoteAuth.js) of ayusc/whatsapp-web.js.

The filesystem is modelled as an association list from paths to entry kinds,
the remote store and the injectable I/O failures as an explicit environment,
and each async method of the class as a state transformer returning the
updated world together with an optional rejection (a rejected promise carries
the side effects performed before the rejection point).
-/

/-- Kind of a filesystem entry. -/
inductive EntryKind where
  | file : EntryKind
  | dir : EntryKind
deriving DecidableEq, Repr

/-- The local filesystem: a list of (path, kind) entries, first match wins. -/
abbrev FS := List (String × EntryKind)

/-- Look up the kind recorded for a path. -/
def FS.lookupKind : FS → String → Option EntryKind
  | [], _ => none
  | e :: rest, p => if e.1 == p then some e.2 else FS.lookupKind rest p

/-- `fs.promises.access(p)` succeeding: the path exists. -/
def FS.existsp (fs : FS) (p : String) : Bool :=
  (fs.lookupKind p).isSome

/-- The path exists and is a directory. -/
def FS.isDirp (fs : FS) (p : String) : Bool :=
  match fs.lookupKind p with
  | some EntryKind.dir => true
  | _ => false

/-- Keep exactly the entries whose path satisfies `g`. -/
def FS.keyFilter (fs : FS) (g : String → Bool) : FS :=
  fs.filter (fun e => g e.1)

/-- `fs.promises.unlink(p)`: drop the entry at `p`. -/
def FS.removeP (fs : FS) (p : String) : FS :=
  fs.keyFilter (fun q => !(q == p))

/-- Prefix test on character lists (kept structural so that concrete runs of
the model reduce inside the kernel). -/
def charsIsPrefix : List Char → List Char → Bool
  | [], _ => true
  | _ :: _, [] => false
  | a :: as, b :: bs => a == b && charsIsPrefix as bs

/-- `p` lies strictly below directory `d`: `d ++ "/"` is a prefix of `p`. -/
def childOf (d p : String) : Bool :=
  charsIsPrefix (d.data ++ ['/']) p.data

/-- `fs.promises.rm(p, { recursive: true, force: true })`: drop `p` and its subtree. -/
def FS.rmRec (fs : FS) (p : String) : FS :=
  fs.keyFilter (fun q => !(q == p || childOf p q))

/-- Create or overwrite the entry at `p`. -/
def FS.insertE (fs : FS) (p : String) (k : EntryKind) : FS :=
  (p, k) :: fs.removeP p

/-- `fs.promises.readdir(d)`: names of the immediate children of `d`. -/
def FS.readdirNames (fs : FS) (d : String) : List String :=
  fs.filterMap (fun e =>
    if childOf d e.1 then
      let rest := e.1.data.drop (d.data.length + 1)
      if rest.isEmpty || rest.contains '/' then none else some (String.mk rest)
    else none)

/-- `path.join(a, b)`. -/
def joinPath (a b : String) : String := a ++ "/" ++ b

/-- Behaviour of the external collaborators and injectable I/O failures for one
execution: the remote store's `sessionExists` answer, whether `store.save`
rejects, whether `store.extract` leaves the archive file behind, whether the
zip is unreadable (AdmZip error), whether the archiver stream errors, whether
the final rename fails, and whether the `fs.copy` of the profile fails. -/
structure Env where
  sessionExists : Bool
  saveFails : Bool
  extractCreatesFile : Bool
  unzipError : Bool
  archiveError : Bool
  renameError : Bool
  copyError : Bool
deriving Repr

/-- The per-instance paths fixed by the constructor and
`beforeBrowserInitialized` (lines 40-58): the session name, the Working
Directory and the Staging Directory. -/
structure RemoteAuth where
  sessionName : String
  userDataDir : String
  tempDir : String
deriving Repr

/-- `this.requiredDirs` set by the constructor (line 45). -/
def requiredDirs : List String := ["Default", "IndexedDB", "Local Storage"]

/-- Observable world: local filesystem, a count of `store.save` attempts, the
log of sessions successfully uploaded, the count of REMOTE_SESSION_SAVED
events emitted to the client, and console output. -/
structure World where
  fs : FS
  saveAttempts : Nat
  savedSessions : List String
  emitted : Nat
  logs : List String
deriving Repr

/-- Result of one async method: the world after all side effects, and
`some e` when the returned promise rejected with `e`. -/
structure Outcome where
  world : World
  error : Option String
deriving Repr

/-- `${this.sessionName}.zip.partial` (lines 103 and 172). -/
def tempZipPath (ra : RemoteAuth) : String := ra.sessionName ++ ".zip.partial"

/-- `${this.sessionName}.zip` (lines 102, 140 and 173). -/
def finalZipPath (ra : RemoteAuth) : String := ra.sessionName ++ ".zip"

/-- Rebase a path from the `src` subtree onto `dst`, as a recursive copy does. -/
def rebase (src dst p : String) : Option String :=
  if p == src then some dst
  else if childOf src p then some (dst ++ String.mk (p.data.drop src.data.length))
  else none

/-- `fs.copy(src, dst)` from fs-extra (line 178): recursively copy `src` onto
`dst`, overwriting colliding entries and keeping the rest; rejects when the
source is missing or on an injected copy failure.  The `.catch(() => {})` at
the call site is applied by the caller. -/
def fsExtraCopy (env : Env) (fs : FS) (src dst : String) : Except String FS :=
  if env.copyError then Except.error "copy failed"
  else if !(fs.existsp src) then Except.error "ENOENT: copy source missing"
  else Except.ok ((fs.filterMap (fun e => (rebase src dst e.1).map (fun q => (q, e.2)))).foldl
      (fun acc e => acc.insertE e.1 e.2) fs)

/-- Inner loop of `deleteMetadata` (lines 217-231): for each listed name not in
`requiredDirs`, `lstat` it (no catch: a missing entry rejects) and remove it,
recursively for a directory, as a single file otherwise; the removals carry
`.catch(() => {})`. -/
def filterEntries (dir : String) : List String → FS → Except String FS
  | [], fs => Except.ok fs
  | element :: rest, fs =>
    if requiredDirs.contains element then filterEntries dir rest fs
    else
      let dirElement := joinPath dir element
      match fs.lookupKind dirElement with
      | none => Except.error ("ENOENT: lstat " ++ dirElement)
      | some EntryKind.dir => filterEntries dir rest (fs.rmRec dirElement)
      | some EntryKind.file => filterEntries dir rest (fs.removeP dirElement)

/-- One iteration of the `for (const dir of sessionDirs)` loop (lines 215-232):
`fs.promises.readdir(dir)` has no catch, so a missing (or non-directory) path
rejects; otherwise the listing is filtered. -/
def processDir (fs : FS) (dir : String) : Except String FS :=
  if fs.isDirp dir then filterEntries dir (fs.readdirNames dir) fs
  else Except.error ("ENOENT: readdir " ++ dir)

/-- `deleteMetadata` (lines 213-233): filter the Staging Directory and its
`Default` subdirectory in order; any readdir/lstat rejection propagates. -/
def deleteMetadata (ra : RemoteAuth) (fs : FS) : Except String FS :=
  (processDir fs ra.tempDir).bind (fun fs1 => processDir fs1 (joinPath ra.tempDir "Default"))

/-- Result of `compressSession`: filesystem after the call plus an optional
rejection. -/
structure CompressOut where
  fs : FS
  error : Option String
deriving Repr

/-- Lines 174-178 of `compressSession`: `fs.createWriteStream(tempZipPath)`
creates the `.partial` file, then `fs.copy(this.userDataDir, this.tempDir)`
runs with `.catch(() => {})`, so a copy failure leaves the filesystem as it
was after the stream was opened. -/
def stagedFs (ra : RemoteAuth) (env : Env) (fs0 : FS) : FS :=
  match fsExtraCopy env (fs0.insertE (tempZipPath ra) EntryKind.file) ra.userDataDir
      ra.tempDir with
  | Except.ok f => f
  | Except.error _ => fs0.insertE (tempZipPath ra) EntryKind.file

/-- `compressSession` (lines 171-198): open the write stream (which creates the
`.partial` file), best-effort copy the Working Directory to the Staging
Directory (`stagedFs`), run `deleteMetadata` (whose rejection propagates),
then stream the archive; an archiver error rejects, otherwise the stream close
handler renames `.partial` to the final name, rejecting when the rename
fails. -/
def compressSession (ra : RemoteAuth) (env : Env) (fs0 : FS) : CompressOut :=
  match deleteMetadata ra (stagedFs ra env fs0) with
  | Except.error e => { fs := stagedFs ra env fs0, error := some e }
  | Except.ok fs3 =>
    if env.archiveError then { fs := fs3, error := some "archive stream error" }
    else
      match fs3.lookupKind (tempZipPath ra) with
      | none => { fs := fs3, error := some "ENOENT: rename" }
      | some k =>
        if env.renameError then { fs := fs3, error := some "rename failed" }
        else { fs := (fs3.removeP (tempZipPath ra)).insertE (finalZipPath ra) k, error := none }

/-- Lines 106-108 of `storeRemoteSession`: delete any leftover `.partial`
file from a crash before compressing (the unlink carries `.catch`). -/
def cleanStaleTempZip (ra : RemoteAuth) (fs : FS) : FS :=
  if fs.existsp (tempZipPath ra) then fs.removeP (tempZipPath ra) else fs

/-- Lines 113-127 of `storeRemoteSession`: if the final zip exists, try
`store.save` - a rejection is caught and logged (lines 122-124); a successful
save is recorded; a missing zip only warns (line 126). -/
def saveStep (ra : RemoteAuth) (env : Env) (w2 : World) : World :=
  if w2.fs.existsp (finalZipPath ra) then
    if env.saveFails then
      { w2 with saveAttempts := w2.saveAttempts + 1,
                logs := ("save error for " ++ ra.sessionName) :: w2.logs }
    else
      { w2 with saveAttempts := w2.saveAttempts + 1,
                savedSessions := ra.sessionName :: w2.savedSessions }
  else
    { w2 with logs := ("zip was not created " ++ finalZipPath ra) :: w2.logs }

/-- Lines 129-135 of `storeRemoteSession`: best-effort remove the Staging
Directory, then emit REMOTE_SESSION_SAVED when `options.emit` was set. -/
def cleanupAndEmit (ra : RemoteAuth) (emit : Bool) (w3 : World) : World :=
  if emit then
    { w3 with fs := w3.fs.rmRec ra.tempDir, emitted := w3.emitted + 1 }
  else
    { w3 with fs := w3.fs.rmRec ra.tempDir }

/-- `storeRemoteSession` after the stale-`.partial` cleanup (lines 110-135):
compress (a rejection propagates to the caller with no further steps), then
the save attempt (`saveStep`), the Staging Directory cleanup and the optional
emit (`cleanupAndEmit`). -/
def storeRemoteSessionRest (ra : RemoteAuth) (env : Env) (emit : Bool) (w1 : World) : Outcome :=
  match (compressSession ra env w1.fs).error with
  | some e => { world := { w1 with fs := (compressSession ra env w1.fs).fs }, error := some e }
  | none =>
    { world := cleanupAndEmit ra emit
        (saveStep ra env { w1 with fs := (compressSession ra env w1.fs).fs }),
      error := none }

/-- `storeRemoteSession` (lines 101-136). -/
def storeRemoteSession (ra : RemoteAuth) (env : Env) (emit : Bool) (w0 : World) : Outcome :=
  storeRemoteSessionRest ra env emit { w0 with fs := cleanStaleTempZip ra w0.fs }

/-- The effect of a successful `unCompressSession` on the target directory:
adm-zip creates the destination and extracts into it (archive entries are not
modelled beyond the destination directory coming into existence). -/
def unzipInto (fs : FS) (dest : String) : FS := fs.insertE dest EntryKind.dir

/-- `extractRemoteSession` (lines 139-164): when the store reports the session
exists, `store.extract` fetches the archive; if the file is there, unzip it -
an unzip error is caught, logged and the archive unlinked; a successful unzip
also unlinks the archive.  When no remote session exists, create the Working
Directory. -/
def extractRemoteSession (ra : RemoteAuth) (env : Env) (w0 : World) : Outcome :=
  let compressedSessionPath := ra.sessionName ++ ".zip"
  if env.sessionExists then
    let fs1 := if env.extractCreatesFile then w0.fs.insertE compressedSessionPath EntryKind.file
               else w0.fs
    let w1 : World := { w0 with fs := fs1 }
    if w1.fs.existsp compressedSessionPath then
      if env.unzipError then
        { world := { w1 with logs := "Failed to unzip session" :: w1.logs,
                             fs := w1.fs.removeP compressedSessionPath }, error := none }
      else
        { world := { w1 with
                     fs := (unzipInto w1.fs ra.userDataDir).removeP compressedSessionPath },
          error := none }
    else
      { world := { w1 with logs := ("zip not found after extraction " ++ compressedSessionPath)
                             :: w1.logs }, error := none }
  else
    { world := { w0 with fs := w0.fs.insertE ra.userDataDir EntryKind.dir }, error := none }

/-- `afterAuthReady` (lines 89-99): when no remote session exists, wait the
grace delay and run the initial backup with `emit: true` (its rejection
propagates, in which case `setInterval` is never reached); then arm the
recurring timer. -/
def afterAuthReady (ra : RemoteAuth) (env : Env) (w0 : World) : Outcome :=
  if env.sessionExists then { world := w0, error := none }
  else storeRemoteSession ra env true w0

/-- One timer tick (lines 96-98): `storeRemoteSession()` with no options; a
rejection inside the interval callback is unhandled and does not stop the
timer. -/
def tick (ra : RemoteAuth) (env : Env) (w : World) : World :=
  (storeRemoteSession ra env false w).world

/-- `n` consecutive timer ticks. -/
def ticks (ra : RemoteAuth) (env : Env) : Nat → World → World
  | 0, w => w
  | n + 1, w => ticks ra env n (tick ra env w)

/-- An execution starting from `afterAuthReady` followed by `n` timer ticks;
when `afterAuthReady` rejects, the interval was never armed and no tick runs. -/
def runFrom (ra : RemoteAuth) (env : Env) (w0 : World) (n : Nat) : Outcome :=
  let o := afterAuthReady ra env w0
  match o.error with
  | some e => { world := o.world, error := some e }
  | none => { world := ticks ra env n o.world, error := none }

/-- Availability of the three optional dependencies after the
`try { require... } catch { ... = undefined }` block (lines 4-12). -/
structure OptionalDeps where
  fsDep : Bool
  admZipDep : Bool
  archiverDep : Bool
deriving Repr

/-- The require block (lines 4-12): the three requires run in one `try`; if any
throws, the single `catch` resets all three to `undefined`, so the variables
are all defined or all undefined. -/
def requireOptionalDeps (fsAvail admZipAvail archiverAvail : Bool) : OptionalDeps :=
  if fsAvail && admZipAvail && archiverAvail then
    { fsDep := true, admZipDep := true, archiverDep := true }
  else
    { fsDep := false, admZipDep := false, archiverDep := false }

/-- JS truthiness of an optional string: `undefined` and the empty string are
falsy. -/
def jsTruthyStr : Option String → Bool
  | none => false
  | some s => !s.data.isEmpty

/-- JS template-literal coercion: `undefined` interpolates as the literal text
"undefined". -/
def jsInterp : Option String → String
  | none => "undefined"
  | some s => s

/-- `idRegex.test(s)` for `/^[-_\w]+$/i` (line 31): non-empty and every
character an ASCII alphanumeric, underscore or hyphen. -/
def idRegexTest (s : String) : Bool :=
  !s.data.isEmpty && s.data.all (fun c => c.isAlphanum || c == '_' || c == '-')

/-- `path.resolve(dataPath || './.wwebjs_auth/')` (line 43): the empty string
is falsy and falls back to the default; resolution itself is modelled as the
identity on the chosen path. -/
def pathResolve : Option String → String
  | none => "./.wwebjs_auth/"
  | some p => if p.data.isEmpty then "./.wwebjs_auth/" else p

/-- The fields recorded by a successful constructor run (lines 40-45). -/
structure RAConfig where
  clientId : Option String
  dataPath : String
  tempDir : String
  backupSyncIntervalMs : Nat
deriving Repr, DecidableEq

/-- The constructor (lines 27-46): the optional-dependency check (line 28,
`!fs && !AdmZip && !archiver` over the all-or-nothing require block), the
clientId pattern check guarded by truthiness (lines 31-34), the interval floor
(lines 35-37, `!backupSyncIntervalMs || backupSyncIntervalMs < 60000`, the
falsy-zero case being subsumed by `0 < 60000`), the store requirement
(line 38), then the field assignments, `tempDir` interpolating `this.clientId`
into a template literal (line 44). -/
def construct (fsAvail admZipAvail archiverAvail : Bool) (clientId : Option String)
    (dataPath : Option String) (hasStore : Bool) (backupSyncIntervalMs : Option Nat) :
    Except String RAConfig :=
  let deps := requireOptionalDeps fsAvail admZipAvail archiverAvail
  if !deps.fsDep && !deps.admZipDep && !deps.archiverDep then
    Except.error "Optional Dependencies [fs-extra, adm-zip, archiver] are required to use RemoteAuth."
  else if jsTruthyStr clientId && !idRegexTest (jsInterp clientId) then
    Except.error "Invalid clientId. Only alphanumeric characters, underscores and hyphens are allowed."
  else
    match backupSyncIntervalMs with
    | none => Except.error "Invalid backupSyncIntervalMs."
    | some iv =>
      if iv < 60000 then Except.error "Invalid backupSyncIntervalMs."
      else if !hasStore then Except.error "Remote database store is required."
      else
        let dp := pathResolve dataPath
        Except.ok { clientId := clientId, dataPath := dp,
                    tempDir := dp ++ "/wwebjs_temp_session_" ++ jsInterp clientId,
                    backupSyncIntervalMs := iv }

/-- Whether construction succeeds. -/
def constructSucceeds (fsAvail admZipAvail archiverAvail : Bool) (clientId : Option String)
    (dataPath : Option String) (hasStore : Bool) (backupSyncIntervalMs : Option Nat) : Bool :=
  match construct fsAvail admZipAvail archiverAvail clientId dataPath hasStore
      backupSyncIntervalMs with
  | Except.ok _ => true
  | Except.error _ => false

/-- `sessionDirName` from `beforeBrowserInitialized` (line 50):
`this.clientId ? "RemoteAuth-" + clientId : "RemoteAuth"`. -/
def sessionDirName (clientId : Option String) : String :=
  if jsTruthyStr clientId then "RemoteAuth-" ++ jsInterp clientId else "RemoteAuth"

/-- Whether an `Except` computation succeeded. -/
def exOk {α : Type} : Except String α → Bool
  | Except.ok _ => true
  | Except.error _ => false

/-- Concrete instance: no clientId supplied, dataPath `/auth`. -/
def raDemo : RemoteAuth :=
  { sessionName := "RemoteAuth",
    userDataDir := "/auth/RemoteAuth",
    tempDir := "/auth/wwebjs_temp_session_undefined" }

/-- Concrete environment: no remote session yet and every `store.save` rejects. -/
def envSaveFail : Env :=
  { sessionExists := false, saveFails := true, extractCreatesFile := false,
    unzipError := false, archiveError := false, renameError := false, copyError := false }

/-- Concrete environment: the archiver stream errors during every backup. -/
def envArchiveFail : Env :=
  { sessionExists := false, saveFails := false, extractCreatesFile := false,
    unzipError := false, archiveError := true, renameError := false, copyError := false }

/-- Concrete environment: every operation succeeds. -/
def envOk : Env :=
  { sessionExists := false, saveFails := false, extractCreatesFile := false,
    unzipError := false, archiveError := false, renameError := false, copyError := false }

/-- Concrete environment: a remote session exists, the fetched archive is
present but unreadable. -/
def envCorrupt : Env :=
  { sessionExists := true, saveFails := false, extractCreatesFile := true,
    unzipError := true, archiveError := false, renameError := false, copyError := false }

/-- Concrete filesystem: the Working Directory with its Default profile. -/
def fsDemo : FS :=
  [("/auth/RemoteAuth", EntryKind.dir), ("/auth/RemoteAuth/Default", EntryKind.dir)]

/-- Concrete initial world over `fsDemo`. -/
def wDemo : World :=
  { fs := fsDemo, saveAttempts := 0, savedSessions := [], emitted := 0, logs := [] }

/-- Concrete empty world. -/
def wEmpty : World :=
  { fs := [], saveAttempts := 0, savedSessions := [], emitted := 0, logs := [] }

/-- Looking a path up after filtering by a key predicate: the entry survives
exactly when its key passes the predicate. -/
theorem lookupKind_keyFilter (g : String → Bool) (fs : FS) (q : String) :
    FS.lookupKind (FS.keyFilter fs g) q = if g q then FS.lookupKind fs q else none := by
  induction fs with
  | nil => simp [FS.keyFilter, FS.lookupKind]
  | cons e rest ih =>
    by_cases heq : e.1 = q
    · subst heq
      by_cases hge : g e.1 = true
      · simp [FS.keyFilter, List.filter_cons, FS.lookupKind, hge] at ih ⊢
      · simp only [Bool.not_eq_true] at hge
        simp [FS.keyFilter, List.filter_cons, FS.lookupKind, hge] at ih ⊢
        exact ih
    · have hbeq : (e.1 == q) = false := by simp [heq]
      by_cases hge : g e.1 = true
      · simp [FS.keyFilter, List.filter_cons, FS.lookupKind, hge, hbeq] at ih ⊢
        exact ih
      · simp only [Bool.not_eq_true] at hge
        simp [FS.keyFilter, List.filter_cons, FS.lookupKind, hge, hbeq] at ih ⊢
        exact ih

/-- Unlinking a path removes exactly that key. -/
theorem lookupKind_removeP (fs : FS) (p q : String) :
    FS.lookupKind (fs.removeP p) q = if q = p then none else FS.lookupKind fs q := by
  rw [FS.removeP, lookupKind_keyFilter]
  by_cases h : q = p <;> simp [h]

/-- After unlinking, the path is gone. -/
theorem existsp_removeP_self (fs : FS) (p : String) :
    (fs.removeP p).existsp p = false := by
  simp [FS.existsp, lookupKind_removeP]

/-- Recursive removal drops exactly the target and its subtree. -/
theorem lookupKind_rmRec (fs : FS) (p q : String) :
    FS.lookupKind (fs.rmRec p) q =
      if q = p || childOf p q then none else FS.lookupKind fs q := by
  rw [FS.rmRec, lookupKind_keyFilter]
  by_cases h1 : q = p
  · simp [h1]
  · by_cases h2 : childOf p q = true <;> simp [h1, h2]

/-- After a recursive removal, the target path is gone. -/
theorem existsp_rmRec_self (fs : FS) (p : String) :
    (fs.rmRec p).existsp p = false := by
  simp [FS.existsp, lookupKind_rmRec]

/-- A path neither equal to nor below the removed directory is untouched by a
recursive removal. -/
theorem existsp_rmRec_other (fs : FS) (p q : String) (h1 : ¬ q = p)
    (h2 : childOf p q = false) : (fs.rmRec p).existsp q = fs.existsp q := by
  simp [FS.existsp, lookupKind_rmRec, h1, h2]

/-- An inserted entry is present. -/
theorem existsp_insertE_self (fs : FS) (p : String) (k : EntryKind) :
    (fs.insertE p k).existsp p = true := by
  simp [FS.insertE, FS.existsp, FS.lookupKind]

/-- Inserting at one path leaves lookups at a different path unchanged. -/
theorem lookupKind_insertE_other (fs : FS) (p q : String) (k : EntryKind) (h : ¬ q = p) :
    (fs.insertE p k).lookupKind q = fs.lookupKind q := by
  have hb : (p == q) = false := by
    simp only [beq_eq_false_iff_ne, ne_eq]
    intro hpq
    exact h hpq.symm
  simp [FS.insertE, FS.lookupKind, hb, lookupKind_removeP, h]

/-- An injected archiver stream error or rename failure makes `compressSession`
reject. -/
theorem compress_error_isSome_of_env (ra : RemoteAuth) (env : Env) (fs : FS)
    (h : env.archiveError = true ∨ env.renameError = true) :
    (compressSession ra env fs).error.isSome = true := by
  unfold compressSession
  cases hdm : deleteMetadata ra (stagedFs ra env fs) with
  | error e => rfl
  | ok fs3 =>
    cases harch : env.archiveError with
    | true => simp
    | false =>
      have hr : env.renameError = true := by
        rcases h with h | h
        · rw [harch] at h; cases h
        · exact h
      cases hlk : fs3.lookupKind (tempZipPath ra) with
      | none => simp [hlk]
      | some k => simp [hlk, hr]

/-- When `compressSession` resolves, the final archive file exists (the rename
has produced it). -/
theorem compress_ok_final (ra : RemoteAuth) (env : Env) (fs : FS) :
    (compressSession ra env fs).error = none →
    (compressSession ra env fs).fs.existsp (finalZipPath ra) = true := by
  unfold compressSession
  cases hdm : deleteMetadata ra (stagedFs ra env fs) with
  | error e => intro h; simp at h
  | ok fs3 =>
    cases harch : env.archiveError with
    | true => intro h; simp at h
    | false =>
      cases hlk : fs3.lookupKind (tempZipPath ra) with
      | none => intro h; simp [hlk] at h
      | some k =>
        cases hren : env.renameError with
        | true => intro h; simp [hlk] at h
        | false => intro _; simp [hlk, existsp_insertE_self]

/-- A rejected compression makes `storeRemoteSessionRest` reject with only the
filesystem changed. -/
theorem storeRemoteSessionRest_err (ra : RemoteAuth) (env : Env) (emit : Bool) (w1 : World)
    (h : (compressSession ra env w1.fs).error.isSome = true) :
    storeRemoteSessionRest ra env emit w1 =
      { world := { w1 with fs := (compressSession ra env w1.fs).fs },
        error := (compressSession ra env w1.fs).error } := by
  unfold storeRemoteSessionRest
  cases hc : (compressSession ra env w1.fs).error with
  | none => rw [hc] at h; simp at h
  | some e => simp

/-- A successful compression makes `storeRemoteSessionRest` run the save,
cleanup and emit phases and resolve. -/
theorem storeRemoteSessionRest_ok (ra : RemoteAuth) (env : Env) (emit : Bool) (w1 : World)
    (h : (compressSession ra env w1.fs).error = none) :
    storeRemoteSessionRest ra env emit w1 =
      { world := cleanupAndEmit ra emit
          (saveStep ra env { w1 with fs := (compressSession ra env w1.fs).fs }),
        error := none } := by
  unfold storeRemoteSessionRest
  simp only [h]

/-- The save phase does not touch the emitted-event counter. -/
theorem saveStep_emitted (ra : RemoteAuth) (env : Env) (w : World) :
    (saveStep ra env w).emitted = w.emitted := by
  unfold saveStep
  split
  · split <;> rfl
  · rfl

/-- The save phase does not touch the filesystem. -/
theorem saveStep_fs (ra : RemoteAuth) (env : Env) (w : World) :
    (saveStep ra env w).fs = w.fs := by
  unfold saveStep
  split
  · split <;> rfl
  · rfl

/-- When the final zip exists and `store.save` rejects, the save phase only
counts the attempt and logs the caught error. -/
theorem saveStep_saveFails (ra : RemoteAuth) (env : Env) (w : World)
    (hf : env.saveFails = true) (hz : w.fs.existsp (finalZipPath ra) = true) :
    saveStep ra env w =
      { w with saveAttempts := w.saveAttempts + 1,
               logs := ("save error for " ++ ra.sessionName) :: w.logs } := by
  unfold saveStep
  rw [if_pos hz, if_pos hf]

/-- The cleanup-and-emit phase bumps the event counter exactly when `emit`. -/
theorem cleanupAndEmit_emitted (ra : RemoteAuth) (emit : Bool) (w : World) :
    (cleanupAndEmit ra emit w).emitted = if emit then w.emitted + 1 else w.emitted := by
  unfold cleanupAndEmit
  cases emit <;> simp

/-- The cleanup-and-emit phase removes the Staging Directory subtree. -/
theorem cleanupAndEmit_fs (ra : RemoteAuth) (emit : Bool) (w : World) :
    (cleanupAndEmit ra emit w).fs = w.fs.rmRec ra.tempDir := by
  unfold cleanupAndEmit
  cases emit <;> simp

/-- The cleanup-and-emit phase does not touch the successful-upload log. -/
theorem cleanupAndEmit_savedSessions (ra : RemoteAuth) (emit : Bool) (w : World) :
    (cleanupAndEmit ra emit w).savedSessions = w.savedSessions := by
  unfold cleanupAndEmit
  cases emit <;> rfl

/-- The cleanup-and-emit phase does not touch the console log. -/
theorem cleanupAndEmit_logs (ra : RemoteAuth) (emit : Bool) (w : World) :
    (cleanupAndEmit ra emit w).logs = w.logs := by
  unfold cleanupAndEmit
  cases emit <;> rfl

/-- `storeRemoteSessionRest` bumps the event counter exactly when it resolves
with `emit` set. -/
theorem storeRemoteSessionRest_emitted (ra : RemoteAuth) (env : Env) (emit : Bool) (w1 : World) :
    (storeRemoteSessionRest ra env emit w1).world.emitted =
      if (storeRemoteSessionRest ra env emit w1).error = none ∧ emit = true
      then w1.emitted + 1 else w1.emitted := by
  unfold storeRemoteSessionRest
  cases hc : (compressSession ra env w1.fs).error with
  | some e => simp
  | none =>
    simp only []
    rw [cleanupAndEmit_emitted, saveStep_emitted]
    cases emit <;> simp

/-- `storeRemoteSession` bumps the event counter exactly when it resolves with
`emit` set. -/
theorem storeRemoteSession_emitted (ra : RemoteAuth) (env : Env) (emit : Bool) (w : World) :
    (storeRemoteSession ra env emit w).world.emitted =
      if (storeRemoteSession ra env emit w).error = none ∧ emit = true
      then w.emitted + 1 else w.emitted := by
  have h := storeRemoteSessionRest_emitted ra env emit { w with fs := cleanStaleTempZip ra w.fs }
  simpa [storeRemoteSession] using h

/-- Timer ticks never change the event counter: each tick runs
`storeRemoteSession` without the emit option. -/
theorem ticks_emitted (ra : RemoteAuth) (env : Env) (n : Nat) (w : World) :
    (ticks ra env n w).emitted = w.emitted := by
  induction n generalizing w with
  | zero => rfl
  | succ n ih =>
    rw [ticks, ih]
    have h := storeRemoteSession_emitted ra env false w
    simpa [tick] using h

/-- C1 (counterexample): with no remote session and a store whose `save`
always rejects, the execution from `afterAuthReady` emits the "remote session
saved" event exactly once even though no backup was ever successfully
uploaded (`savedSessions` stays empty), refuting "it fires only when that
first backup succeeded". -/
theorem c1_counterexample :
    (runFrom raDemo envSaveFail wDemo 2).error = none ∧
    (runFrom raDemo envSaveFail wDemo 2).world.emitted = 1 ∧
    (runFrom raDemo envSaveFail wDemo 2).world.savedSessions = [] := by
  decide

/-- C1 (amended): for every execution from `afterAuthReady`, if the remote
store reports the session exists no saved event fires, and otherwise exactly
one saved event fires exactly when the initial `storeRemoteSession` call
resolves (the archive was built), regardless of whether the upload succeeded;
recurring timer ticks never emit. -/
theorem c1_saved_event_iff_initial_resolves (ra : RemoteAuth) (env : Env) (w : World) (n : Nat) :
    (runFrom ra env w n).world.emitted =
      if env.sessionExists = true then w.emitted
      else if (storeRemoteSession ra env true w).error = none then w.emitted + 1
      else w.emitted := by
  unfold runFrom afterAuthReady
  cases hs : env.sessionExists with
  | true => simp [ticks_emitted]
  | false =>
    simp only [Bool.false_eq_true, if_false]
    cases ho : (storeRemoteSession ra env true w).error with
    | some e =>
      have h := storeRemoteSession_emitted ra env true w
      rw [ho] at h
      simpa [ho] using h
    | none =>
      have h := storeRemoteSession_emitted ra env true w
      rw [ho] at h
      simp only [ho]
      simpa [ticks_emitted] using h

/-- C3: whenever building the archive fails (archiver stream error or rename
failure), `storeRemoteSession` rejects to its caller, no upload is attempted
and the record of successfully uploaded sessions is unchanged. -/
theorem c3_archive_failure_rejects_no_upload (ra : RemoteAuth) (env : Env) (emit : Bool)
    (w : World) (h : env.archiveError = true ∨ env.renameError = true) :
    (storeRemoteSession ra env emit w).error.isSome = true ∧
    (storeRemoteSession ra env emit w).world.saveAttempts = w.saveAttempts ∧
    (storeRemoteSession ra env emit w).world.savedSessions = w.savedSessions := by
  have hc := compress_error_isSome_of_env ra env (cleanStaleTempZip ra w.fs) h
  have he := storeRemoteSessionRest_err ra env emit { w with fs := cleanStaleTempZip ra w.fs } hc
  rw [storeRemoteSession, he]
  simpa using hc

/-- C3 (witness): a concrete cycle with an archiver stream error. -/
theorem c3_witness :
    (storeRemoteSession raDemo envArchiveFail true wDemo).error.isSome = true ∧
    (storeRemoteSession raDemo envArchiveFail true wDemo).world.saveAttempts =
      wDemo.saveAttempts ∧
    (storeRemoteSession raDemo envArchiveFail true wDemo).world.savedSessions =
      wDemo.savedSessions :=
  c3_archive_failure_rejects_no_upload raDemo envArchiveFail true wDemo (Or.inl rfl)

/-- C4 (counterexample): when the archiver stream errors, `storeRemoteSession`
rejects before its cleanup step and the Staging Directory survives the cycle,
refuting "the staging directory is deleted whether the cycle succeeds or fails
at any step". -/
theorem c4_counterexample :
    (storeRemoteSession raDemo envArchiveFail true wDemo).error.isSome = true ∧
    (storeRemoteSession raDemo envArchiveFail true wDemo).world.fs.existsp raDemo.tempDir
      = true := by
  decide

/-- C4 (amended): the Staging Directory is deleted by the end of every cycle
whose `compressSession` resolves (in particular on upload failure or a missing
zip); a cycle whose compression rejects ends without the cleanup step. -/
theorem c4_staging_deleted_when_compress_resolves (ra : RemoteAuth) (env : Env) (emit : Bool)
    (w : World) (h : (compressSession ra env (cleanStaleTempZip ra w.fs)).error = none) :
    (storeRemoteSession ra env emit w).world.fs.existsp ra.tempDir = false := by
  have ho := storeRemoteSessionRest_ok ra env emit { w with fs := cleanStaleTempZip ra w.fs } h
  rw [storeRemoteSession, ho]
  simp [cleanupAndEmit_fs, existsp_rmRec_self]

/-- C4 (witness): a concrete fully successful cycle deletes the staging
directory. -/
theorem c4_witness :
    (storeRemoteSession raDemo envOk true wDemo).world.fs.existsp raDemo.tempDir = false :=
  c4_staging_deleted_when_compress_resolves raDemo envOk true wDemo (by decide)

/-- C7: in every invocation of `storeRemoteSession`, the stale-`.partial`
cleanup step leaves no `.partial` archive, and the whole invocation is exactly
the remaining phases run on that cleaned state - so the new `.partial`/final
pair is only written after the stale one is gone. -/
theorem c7_stale_zip_removed_before_compress (ra : RemoteAuth) (env : Env) (emit : Bool)
    (w : World) :
    (cleanStaleTempZip ra w.fs).existsp (tempZipPath ra) = false ∧
    storeRemoteSession ra env emit w =
      storeRemoteSessionRest ra env emit { w with fs := cleanStaleTempZip ra w.fs } := by
  constructor
  · unfold cleanStaleTempZip
    by_cases h : w.fs.existsp (tempZipPath ra) = true
    · simp [h, existsp_removeP_self]
    · simp only [Bool.not_eq_true] at h
      simp [h]
  · rfl

/-- C2 (counterexample): with a remote session whose fetched archive is
unreadable, `extractRemoteSession` resolves and deletes the archive, but the
Working Directory is never created (starting from an empty filesystem it is
still absent afterwards), refuting "the Working Directory ends up initialized
empty, as if no remote session existed". -/
theorem c2_counterexample :
    (extractRemoteSession raDemo envCorrupt wEmpty).error = none ∧
    (extractRemoteSession raDemo envCorrupt wEmpty).world.fs.existsp
      (raDemo.sessionName ++ ".zip") = false ∧
    (extractRemoteSession raDemo envCorrupt wEmpty).world.fs.existsp raDemo.userDataDir
      = false := by
  decide

/-- C2 (amended): when the remote session exists and the fetched archive is
unreadable, the extraction error is caught (`extractRemoteSession` resolves),
the corrupted archive file is deleted, and the Working Directory is left
exactly as it was - the `mkdir` fallback runs only in the no-remote-session
branch, so the directory is not initialized here. -/
theorem c2_unzip_error_caught_no_mkdir (ra : RemoteAuth) (env : Env) (w : World)
    (hs : env.sessionExists = true) (hf : env.extractCreatesFile = true)
    (hu : env.unzipError = true)
    (hw : ¬ ra.userDataDir = ra.sessionName ++ ".zip") :
    (extractRemoteSession ra env w).error = none ∧
    (extractRemoteSession ra env w).world.fs.existsp (ra.sessionName ++ ".zip") = false ∧
    (extractRemoteSession ra env w).world.fs.existsp ra.userDataDir
      = w.fs.existsp ra.userDataDir := by
  unfold extractRemoteSession
  simp only [hs, hf, hu, if_true]
  rw [if_pos (existsp_insertE_self w.fs (ra.sessionName ++ ".zip") EntryKind.file)]
  refine ⟨rfl, ?_, ?_⟩
  · exact existsp_removeP_self _ _
  · simp only [FS.existsp]
    rw [lookupKind_removeP, if_neg hw, lookupKind_insertE_other _ _ _ _ hw]

/-- C2 (witness): the amended behaviour at a concrete corrupted-archive
restore. -/
theorem c2_witness :
    (extractRemoteSession raDemo envCorrupt wDemo).error = none ∧
    (extractRemoteSession raDemo envCorrupt wDemo).world.fs.existsp
      (raDemo.sessionName ++ ".zip") = false ∧
    (extractRemoteSession raDemo envCorrupt wDemo).world.fs.existsp raDemo.userDataDir
      = wDemo.fs.existsp raDemo.userDataDir :=
  c2_unzip_error_caught_no_mkdir raDemo envCorrupt wDemo rfl rfl rfl (by decide)

/-- C6: when the archive was built but the remote store's `save` call rejects,
`storeRemoteSession` resolves (the error is caught), logs the failure, and the
local final archive file still exists at the end of the cycle. -/
theorem c6_save_failure_caught_archive_kept (ra : RemoteAuth) (env : Env) (emit : Bool)
    (w : World) (hfail : env.saveFails = true)
    (hc : (compressSession ra env (cleanStaleTempZip ra w.fs)).error = none)
    (h1 : ¬ finalZipPath ra = ra.tempDir)
    (h2 : childOf ra.tempDir (finalZipPath ra) = false) :
    (storeRemoteSession ra env emit w).error = none ∧
    (storeRemoteSession ra env emit w).world.fs.existsp (finalZipPath ra) = true ∧
    (storeRemoteSession ra env emit w).world.savedSessions = w.savedSessions ∧
    (storeRemoteSession ra env emit w).world.logs =
      ("save error for " ++ ra.sessionName) :: w.logs := by
  have hfz := compress_ok_final ra env (cleanStaleTempZip ra w.fs) hc
  have ho := storeRemoteSessionRest_ok ra env emit { w with fs := cleanStaleTempZip ra w.fs } hc
  rw [storeRemoteSession, ho]
  rw [saveStep_saveFails ra env _ hfail (by simpa using hfz)]
  refine ⟨rfl, ?_, ?_, ?_⟩
  · rw [cleanupAndEmit_fs]
    simp only []
    rw [existsp_rmRec_other _ _ _ h1 h2]
    simpa using hfz
  · simp [cleanupAndEmit_savedSessions]
  · simp [cleanupAndEmit_logs]

/-- C6 (witness): a concrete cycle whose upload rejects keeps the local
archive and resolves. -/
theorem c6_witness :
    (storeRemoteSession raDemo envSaveFail true wDemo).error = none ∧
    (storeRemoteSession raDemo envSaveFail true wDemo).world.fs.existsp
      (finalZipPath raDemo) = true ∧
    (storeRemoteSession raDemo envSaveFail true wDemo).world.savedSessions =
      wDemo.savedSessions ∧
    (storeRemoteSession raDemo envSaveFail true wDemo).world.logs =
      ("save error for " ++ raDemo.sessionName) :: wDemo.logs :=
  c6_save_failure_caught_archive_kept raDemo envSaveFail true wDemo rfl (by decide)
    (by decide) (by decide)

/-- A successful lookup in a key-filtered filesystem was already a successful
lookup beforehand. -/
theorem lookupKind_keyFilter_some (g : String → Bool) (fs : FS) (q : String) (k : EntryKind)
    (h : (FS.keyFilter fs g).lookupKind q = some k) : fs.lookupKind q = some k := by
  rw [lookupKind_keyFilter] at h
  by_cases hg : g q = true
  · rwa [if_pos hg] at h
  · rw [if_neg hg] at h
    cases h

/-- The metadata filter loop only removes entries: a successful lookup after
the loop was already there before it. -/
theorem filterEntries_lookup_some (dir : String) (names : List String) :
    ∀ (fs fs1 : FS) (q : String) (k : EntryKind),
      filterEntries dir names fs = Except.ok fs1 → fs1.lookupKind q = some k →
      fs.lookupKind q = some k := by
  induction names with
  | nil =>
    intro fs fs1 q k h hl
    cases h
    exact hl
  | cons element rest ih =>
    intro fs fs1 q k h hl
    simp only [filterEntries] at h
    by_cases hreq : requiredDirs.contains element = true
    · rw [if_pos hreq] at h
      exact ih fs fs1 q k h hl
    · rw [if_neg hreq] at h
      cases hlk : fs.lookupKind (joinPath dir element) with
      | none => rw [hlk] at h; cases h
      | some kk =>
        rw [hlk] at h
        cases kk with
        | dir =>
          have hrec := ih _ fs1 q k h hl
          rw [FS.rmRec] at hrec
          exact lookupKind_keyFilter_some _ _ _ _ hrec
        | file =>
          have hrec := ih _ fs1 q k h hl
          rw [FS.removeP] at hrec
          exact lookupKind_keyFilter_some _ _ _ _ hrec

/-- The metadata filter loop never turns a non-directory into a directory:
directory-ness after the loop implies directory-ness before it. -/
theorem filterEntries_isDirp (dir : String) (names : List String) (fs fs1 : FS) (q : String)
    (h : filterEntries dir names fs = Except.ok fs1) (hd : fs1.isDirp q = true) :
    fs.isDirp q = true := by
  unfold FS.isDirp at hd ⊢
  cases hl : fs1.lookupKind q with
  | none => rw [hl] at hd; simp at hd
  | some k =>
    rw [hl] at hd
    cases k with
    | file => simp at hd
    | dir => rw [filterEntries_lookup_some dir names fs fs1 q EntryKind.dir h hl]

/-- C5 (counterexample): `deleteMetadata` on a filesystem without the staging
directory rejects with the readdir error instead of treating the missing
directory as nothing-to-filter. -/
theorem c5_counterexample :
    deleteMetadata raDemo [] =
      Except.error "ENOENT: readdir /auth/wwebjs_temp_session_undefined" := by
  rfl

/-- C5 (amended): a missing (or non-directory) staging directory or `Default`
subdirectory makes `deleteMetadata` reject - the unguarded
`fs.promises.readdir` failure propagates and fails the backup cycle instead of
being treated as nothing-to-filter. -/
theorem c5_missing_dir_rejects (ra : RemoteAuth) (fs : FS)
    (h : fs.isDirp ra.tempDir = false ∨ fs.isDirp (joinPath ra.tempDir "Default") = false) :
    exOk (deleteMetadata ra fs) = false := by
  unfold deleteMetadata
  rcases h with h | h
  · unfold processDir
    rw [if_neg (by simp [h])]
    rfl
  · cases hp : processDir fs ra.tempDir with
    | error e => rfl
    | ok fs1 =>
      have hsplit : fs.isDirp ra.tempDir = true ∧
          filterEntries ra.tempDir (fs.readdirNames ra.tempDir) fs = Except.ok fs1 := by
        unfold processDir at hp
        by_cases hd0 : fs.isDirp ra.tempDir = true
        · rw [if_pos hd0] at hp
          exact ⟨hd0, hp⟩
        · rw [if_neg hd0] at hp
          cases hp
      have hd1 : fs1.isDirp (joinPath ra.tempDir "Default") = false := by
        cases hb : fs1.isDirp (joinPath ra.tempDir "Default") with
        | false => rfl
        | true =>
          have := filterEntries_isDirp _ _ _ _ _ hsplit.2 hb
          rw [this] at h
          cases h
      show exOk (processDir fs1 (joinPath ra.tempDir "Default")) = false
      unfold processDir
      rw [if_neg (by simp [hd1])]
      rfl

/-- C5 (witness): the staging directory exists but its `Default`
subdirectory is missing, and the filter rejects. -/
theorem c5_witness :
    exOk (deleteMetadata raDemo [("/auth/wwebjs_temp_session_undefined", EntryKind.dir)])
      = false :=
  c5_missing_dir_rejects raDemo [("/auth/wwebjs_temp_session_undefined", EntryKind.dir)]
    (Or.inr (by decide))

/-- C8 (counterexample): the empty string is a supplied identifier that does
not match the allowed pattern, yet construction succeeds, because the pattern
check is guarded by JS truthiness (`clientId && !idRegex.test(clientId)`) and
the empty string is falsy. -/
theorem c8_counterexample :
    constructSucceeds true true true (some "") (some "/data") true (some 60000) = true ∧
    idRegexTest "" = false := by
  decide

/-- C8 (amended): for every non-empty supplied identifier (with dependencies
available, a store supplied and a valid interval), construction succeeds
exactly when the identifier matches the allowed pattern; the empty string is
treated as absent and construction succeeds despite not matching. -/
theorem c8_nonempty_clientId_validation (s : String) (dataPath : Option String) (iv : Nat)
    (hs : s.data.isEmpty = false) (hiv : 60000 ≤ iv) :
    constructSucceeds true true true (some s) dataPath true (some iv) = idRegexTest s := by
  cases hid : idRegexTest s with
  | true =>
    simp [constructSucceeds, construct, requireOptionalDeps, jsTruthyStr, jsInterp, hs, hid,
      Nat.not_lt.mpr hiv]
  | false =>
    simp [constructSucceeds, construct, requireOptionalDeps, jsTruthyStr, jsInterp, hs, hid]

/-- C8 (witness): a concrete pattern-matching identifier constructs
successfully. -/
theorem c8_witness :
    constructSucceeds true true true (some "client-1") (some "/data") true (some 60000)
      = idRegexTest "client-1" :=
  c8_nonempty_clientId_validation "client-1" (some "/data") 60000 (by decide) (by decide)

/-- C9: construction succeeds only when all three optional dependencies
(fs-extra, adm-zip, archiver) are available - the single try/catch around the
three requires resets them all when any one is missing, so the
`!fs && !AdmZip && !archiver` check at line 28 fires whenever any capability
is unavailable, and a successfully constructed instance has all of them. -/
theorem c9_construct_ok_requires_all_deps (fsAvail admZipAvail archiverAvail : Bool)
    (clientId dataPath : Option String) (hasStore : Bool) (iv : Option Nat)
    (h : constructSucceeds fsAvail admZipAvail archiverAvail clientId dataPath hasStore iv
      = true) :
    fsAvail = true ∧ admZipAvail = true ∧ archiverAvail = true := by
  cases fsAvail <;> cases admZipAvail <;> cases archiverAvail <;>
    simp_all [constructSucceeds, construct, requireOptionalDeps]

/-- C9 (witness): with all dependencies available and valid arguments,
construction succeeds and the theorem applies. -/
theorem c9_witness : true = true ∧ true = true ∧ true = true :=
  c9_construct_ok_requires_all_deps true true true none (some "/data") true (some 60000)
    (by decide)

/-- C10: constructed without a clientId (and with valid store and interval),
construction succeeds, the session name used as remote-store key and
working-directory name is the fixed default "RemoteAuth", and the
staging-directory path embeds the literal text "undefined" interpolated from
the undefined `this.clientId` in the template literal of line 44. -/
theorem c10_absent_clientId_defaults (dataPath : Option String) (iv : Nat)
    (hiv : 60000 ≤ iv) :
    construct true true true none dataPath true (some iv) =
      Except.ok { clientId := none, dataPath := pathResolve dataPath,
                  tempDir := pathResolve dataPath ++ "/wwebjs_temp_session_" ++ "undefined",
                  backupSyncIntervalMs := iv } ∧
    sessionDirName none = "RemoteAuth" := by
  constructor
  · simp [construct, requireOptionalDeps, jsTruthyStr, jsInterp, Nat.not_lt.mpr hiv]
  · rfl

/-- C10 (witness): the concrete staging path for dataPath `/data`. -/
theorem c10_witness :
    construct true true true none (some "/data") true (some 60000) =
      Except.ok { clientId := none, dataPath := pathResolve (some "/data"),
                  tempDir := pathResolve (some "/data") ++ "/wwebjs_temp_session_"
                    ++ "undefined",
                  backupSyncIntervalMs := 60000 } ∧
    sessionDirName none = "RemoteAuth" :=
  c10_absent_clientId_defaults (some "/data") 60000 (by decide)
